import Mathlib

/-!
Verification of the SafeSakhi risk-aggregation pipeline.

This file embeds the risk aggregator (`src/lambdas/risk_assessor/handler.py`)
and the key-extraction boundary of the emergency responder
(`src/lambdas/emergency_responder/handler.py`) as executable Lean functions.
Python floats are modelled as rationals; DynamoDB reads, the risk-store write
and the downstream lambda invocation are modelled as explicit inputs and
outputs of the handler function; exceptions raised by a store call are
modelled with `Except`, and the top-level try/except of the handler is the
surrounding case analysis.
-/

namespace SafeSakhi

/-- The five categorical risk levels returned by `get_risk_level`
(risk_assessor/handler.py, lines 66-76). -/
inductive RiskLevel where
  | CRITICAL
  | HIGH
  | MEDIUM
  | LOW
  | NONE
deriving DecidableEq

/-- The string stored and returned for each risk level. -/
def RiskLevel.name : RiskLevel → String
  | .CRITICAL => "CRITICAL"
  | .HIGH => "HIGH"
  | .MEDIUM => "MEDIUM"
  | .LOW => "LOW"
  | .NONE => "NONE"

/-- Configuration values read from environment variables at module load
(risk_assessor/handler.py, lines 36-63). Field names follow the source. -/
structure Config where
  RISK_ASSESSMENT_THRESHOLD : ℚ
  RECENT_THREATS_TIME_WINDOW_SECONDS : ℤ
  WEIGHT_BASE_SCORE : ℚ
  WEIGHT_ESCALATION_SCORE : ℚ
  WEIGHT_CONTEXT_SCORE : ℚ
  WEIGHT_PATTERN_SCORE : ℚ
  THRESHOLD_CRITICAL : ℚ
  THRESHOLD_HIGH : ℚ
  THRESHOLD_MEDIUM : ℚ
  THRESHOLD_LOW : ℚ
  CONTEXT_NIGHT_HOURS_BONUS : ℚ
  CONTEXT_HIGH_RISK_AREA_BONUS : ℚ
  HIGH_RISK_AREA_PROXIMITY_DEGREE : ℚ
  ESCALATION_MULTI_TYPE_BONUS : ℚ
  ESCALATION_HIGH_COUNT_BONUS : ℚ
  ESCALATION_HIGH_SEVERITY_BONUS : ℚ
  ESCALATION_HIGH_SEVERITY_THRESHOLD : ℚ
  ESCALATION_HIGH_COUNT_THRESHOLD : ℕ
deriving DecidableEq

/-- The source defaults for every configuration value. -/
def defaultConfig : Config where
  RISK_ASSESSMENT_THRESHOLD := 4/5
  RECENT_THREATS_TIME_WINDOW_SECONDS := 1800
  WEIGHT_BASE_SCORE := 2/5
  WEIGHT_ESCALATION_SCORE := 3/10
  WEIGHT_CONTEXT_SCORE := 1/5
  WEIGHT_PATTERN_SCORE := 1/10
  THRESHOLD_CRITICAL := 9/10
  THRESHOLD_HIGH := 7/10
  THRESHOLD_MEDIUM := 1/2
  THRESHOLD_LOW := 3/10
  CONTEXT_NIGHT_HOURS_BONUS := 1/5
  CONTEXT_HIGH_RISK_AREA_BONUS := 3/10
  HIGH_RISK_AREA_PROXIMITY_DEGREE := 1/100
  ESCALATION_MULTI_TYPE_BONUS := 2/5
  ESCALATION_HIGH_COUNT_BONUS := 3/10
  ESCALATION_HIGH_SEVERITY_BONUS := 3/10
  ESCALATION_HIGH_SEVERITY_THRESHOLD := 3/5
  ESCALATION_HIGH_COUNT_THRESHOLD := 3

/-- `get_risk_level` (risk_assessor/handler.py, lines 66-76): descending
threshold comparison, each bound inclusive. -/
def get_risk_level (cfg : Config) (score : ℚ) : RiskLevel :=
  if cfg.THRESHOLD_CRITICAL ≤ score then .CRITICAL
  else if cfg.THRESHOLD_HIGH ≤ score then .HIGH
  else if cfg.THRESHOLD_MEDIUM ≤ score then .MEDIUM
  else if cfg.THRESHOLD_LOW ≤ score then .LOW
  else .NONE

/-- A location dictionary; `latitude` / `longitude` may be absent
(`dict.get` returning `None` is `none`). -/
structure Location where
  latitude : Option ℚ
  longitude : Option ℚ
deriving DecidableEq

/-- One entry of a user profile high_risk_areas list. The `radius_km`
field is read by the source (line 95) but never used in the test. -/
structure Area where
  latitude : Option ℚ
  longitude : Option ℚ
  radius_km : Option ℚ
deriving DecidableEq

/-- The inner bounding-box test of the loop body of
`is_within_high_risk_area` (lines 92-103): an area whose latitude or
longitude is absent never matches. -/
def areaHit (prox : ℚ) (user_lat user_lon : ℚ) (area : Area) : Bool :=
  match area.latitude, area.longitude with
  | some area_lat, some area_lon =>
      decide (|user_lat - area_lat| ≤ prox) && decide (|user_lon - area_lon| ≤ prox)
  | _, _ => false

/-- `is_within_high_risk_area` (risk_assessor/handler.py, lines 78-104):
returns false when the location or the area list is falsy or when the
point lacks a coordinate; otherwise the axis-aligned box test, OR over
the areas. -/
def is_within_high_risk_area (prox : ℚ) (user_location : Option Location)
    (high_risk_areas : List Area) : Bool :=
  match user_location with
  | none => false
  | some l =>
    if high_risk_areas.isEmpty then false
    else
      match l.latitude, l.longitude with
      | some user_lat, some user_lon => high_risk_areas.any (areaHit prox user_lat user_lon)
      | _, _ => false

/-- A queried analysis-table item; the source reads
`item.get('threat_score', 0)`, so the key may be absent. -/
structure HistoryItem where
  threat_score : Option ℚ
deriving DecidableEq

/-- `item.get('threat_score', 0)`. -/
def itemScore (i : HistoryItem) : ℚ := i.threat_score.getD 0

/-- `recent_threats_count` after the three query loops
(lines 142-174): one increment per queried item. -/
def recentThreatsCount (a m t : List HistoryItem) : ℕ :=
  a.length + m.length + t.length

/-- Size of the `recent_threat_types` set after the loops: a modality tag
is added once per item, so the set size is the number of nonempty result
lists. -/
def recentThreatTypesCount (a m t : List HistoryItem) : ℕ :=
  (if a.isEmpty then 0 else 1) + (if m.isEmpty then 0 else 1) +
  (if t.isEmpty then 0 else 1)

/-- `high_severity_threats` after the loops: queried items whose stored
score (default 0) reaches the severity threshold. -/
def highSeverityThreats (cfg : Config) (a m t : List HistoryItem) : ℕ :=
  ((a ++ m ++ t).filter
    (fun i => cfg.ESCALATION_HIGH_SEVERITY_THRESHOLD ≤ itemScore i)).length

/-- `escalation_score` (lines 176-181): three independent additive
bonuses, computed from the queried history only. -/
def escalationScore (cfg : Config) (a m t : List HistoryItem) : ℚ :=
  (if 1 < recentThreatTypesCount a m t then cfg.ESCALATION_MULTI_TYPE_BONUS else 0) +
  (if cfg.ESCALATION_HIGH_COUNT_THRESHOLD ≤ recentThreatsCount a m t then
      cfg.ESCALATION_HIGH_COUNT_BONUS else 0) +
  (if 0 < highSeverityThreats cfg a m t then cfg.ESCALATION_HIGH_SEVERITY_BONUS else 0)

/-- `datetime.fromtimestamp(timestamp).hour`, read in UTC: epoch seconds
to hour of day. -/
def hourOf (ts : ℤ) : ℤ := ts / 3600 % 24

/-- Per-user profile record from the users table. An absent
`high_risk_areas` key and an empty list are both falsy in the source and
both modelled as `[]`; likewise `emergency_contacts` (contacts are kept
opaque). -/
structure UserProfile where
  high_risk_areas : List Area
  emergency_contacts : List String
deriving DecidableEq

/-- `context_score` (lines 184-202): night-hours bonus for hour in
[22,24) or [0,6), plus the geofence bonus when a location was taken from
the event and the profile has a truthy high_risk_areas list. -/
def contextScore (cfg : Config) (ts : ℤ) (user_current_location : Option Location)
    (user_profile : UserProfile) : ℚ :=
  (if 22 ≤ hourOf ts ∨ hourOf ts < 6 then cfg.CONTEXT_NIGHT_HOURS_BONUS else 0) +
  (if user_current_location.isSome && !user_profile.high_risk_areas.isEmpty then
      (if is_within_high_risk_area cfg.HIGH_RISK_AREA_PROXIMITY_DEGREE
          user_current_location user_profile.high_risk_areas then
        cfg.CONTEXT_HIGH_RISK_AREA_BONUS
      else 0)
    else 0)

/-- The handler input event: each field is `event.get(...)`, so absent
keys are `none`. -/
structure TriggerEvent where
  user_id : Option String
  trigger_type : Option String
  timestamp : Option ℤ
  threat_score : Option ℚ
  location : Option Location
deriving DecidableEq

/-- Python truthiness of an optional string: `None` and the empty string
are falsy. -/
def truthyStr : Option String → Bool
  | none => false
  | some s => !(s == "")

/-- Python truthiness of an optional integer: `None` and `0` are falsy. -/
def truthyInt : Option ℤ → Bool
  | none => false
  | some n => !(n == 0)

/-- The validation check (line 116):
`all([user_id, trigger_type, timestamp, threat_score is not None])` —
truthiness of the first three values, presence only for `threat_score`. -/
def validFields (e : TriggerEvent) : Bool :=
  truthyStr e.user_id && truthyStr e.trigger_type &&
  truthyInt e.timestamp && e.threat_score.isSome

/-- The item written to the risk assessments table (lines 221-234).
`assessment_time` is `datetime.utcnow()`, modelled as the wall-clock
parameter of the handler. -/
structure RiskRecord where
  user_id : String
  timestamp : ℤ
  final_score : ℚ
  risk_level : RiskLevel
  trigger_type : String
  base_threat_score : ℚ
  escalation_score : ℚ
  context_score : ℚ
  pattern_score : ℚ
  assessment_time : ℤ
deriving DecidableEq

/-- The payload of the asynchronous Emergency Responder invocation
(lines 243-250). `timestamp_iso` is the ISO rendering of the trigger
timestamp, kept as the epoch value. -/
structure EscalationPayload where
  user_id : String
  risk_level : RiskLevel
  final_score : ℚ
  trigger_type : String
  timestamp_iso : ℤ
  emergency_contacts : List String
deriving DecidableEq

/-- A JSON value appearing in a response body. -/
inductive JVal where
  | str (s : String)
  | num (q : ℚ)
deriving DecidableEq

/-- Outcomes of the store and downstream calls the handler makes, in
source order: profile get_item, the three analysis-table queries, the
risk-store put_item and the responder invoke. `Except.error` models the
call raising; any raise reaches the top-level try/except. -/
structure StoreEnv where
  profileGet : Except Unit (Option UserProfile)
  audioQuery : Except Unit (List HistoryItem)
  motionQuery : Except Unit (List HistoryItem)
  textQuery : Except Unit (List HistoryItem)
  putResult : Except Unit Unit
  invokeResult : Except Unit Unit

/-- Observable outcome of one handler run: the HTTP-style response plus
the writes performed on the risk store and the downstream invocations
actually delivered. -/
structure HandlerResult where
  statusCode : ℕ
  body : List (String × JVal)
  writes : List RiskRecord
  invocations : List EscalationPayload
deriving DecidableEq

/-- Body of the 400 validation response (lines 118-121). -/
def validationErrorBody : List (String × JVal) :=
  [("error", .str "Missing required fields for risk assessment")]

/-- Body of the 500 response of the top-level except (lines 261-264). -/
def internalErrorBody : List (String × JVal) :=
  [("error", .str "Internal server error during risk assessment")]

/-- Body of the 200 response (lines 254-257). -/
def successBody (final_score : ℚ) (risk_level : RiskLevel) : List (String × JVal) :=
  [("message", .str "Risk assessment complete"),
   ("risk_score", .num final_score),
   ("risk_level", .str risk_level.name)]

/-- `lambda_handler` of risk_assessor/handler.py (lines 106-264).
Control flow follows the source: validation first; a raising profile
lookup, history query, put or invoke falls through to the top-level
except and yields the 500 response, keeping whatever side effects had
already happened (a raising query happens before the put, so the writes
are then empty; a raising invoke happens after the put, so the record
stays written). The profile-absent branch (lines 127-131) computes the
degraded score and falls directly to the 200 return: it performs no
write and no invocation. -/
def lambda_handler (cfg : Config) (env : StoreEnv) (now : ℤ)
    (event : TriggerEvent) : HandlerResult :=
  if validFields event then
    let user_id := event.user_id.getD ""
    let trigger_type := event.trigger_type.getD ""
    let timestamp := event.timestamp.getD 0
    let threat_score := event.threat_score.getD 0
    match env.profileGet with
    | .error _ => ⟨500, internalErrorBody, [], []⟩
    | .ok none =>
        let final_score := threat_score * cfg.WEIGHT_BASE_SCORE
        let risk_level := get_risk_level cfg final_score
        ⟨200, successBody final_score risk_level, [], []⟩
    | .ok (some user_profile) =>
        match env.audioQuery, env.motionQuery, env.textQuery with
        | .ok audioItems, .ok motionItems, .ok textItems =>
            let base_score := threat_score
            let escalation_score := escalationScore cfg audioItems motionItems textItems
            let user_current_location :=
              if trigger_type == "motion_analysis" && event.location.isSome then
                event.location
              else none
            let context_score := contextScore cfg timestamp user_current_location user_profile
            let pattern_score : ℚ := 0
            let final_score :=
              min 1 (max 0 (base_score * cfg.WEIGHT_BASE_SCORE +
                escalation_score * cfg.WEIGHT_ESCALATION_SCORE +
                context_score * cfg.WEIGHT_CONTEXT_SCORE +
                pattern_score * cfg.WEIGHT_PATTERN_SCORE))
            let risk_level := get_risk_level cfg final_score
            let record : RiskRecord :=
              ⟨user_id, timestamp, final_score, risk_level, trigger_type,
               threat_score, escalation_score, context_score, pattern_score, now⟩
            match env.putResult with
            | .error _ => ⟨500, internalErrorBody, [], []⟩
            | .ok _ =>
                if cfg.RISK_ASSESSMENT_THRESHOLD ≤ final_score then
                  match env.invokeResult with
                  | .error _ => ⟨500, internalErrorBody, [record], []⟩
                  | .ok _ =>
                      ⟨200, successBody final_score risk_level, [record],
                       [⟨user_id, risk_level, final_score, trigger_type, timestamp,
                         user_profile.emergency_contacts⟩]⟩
                else ⟨200, successBody final_score risk_level, [record], []⟩
        | _, _, _ => ⟨500, internalErrorBody, [], []⟩
  else ⟨400, validationErrorBody, [], []⟩

/-- Lookup of a key in a response body or payload dictionary. -/
def bodyGet (k : String) (r : HandlerResult) : Option JVal :=
  (r.body.find? (fun kv => kv.1 == k)).map (fun kv => kv.2)

/-! ## Emergency responder (src/lambdas/emergency_responder/handler.py) -/

/-- A value appearing in the JSON payload handed to the responder. -/
inductive PVal where
  | str (s : String)
  | num (q : ℚ)
  | int (n : ℤ)
  | strList (l : List String)
deriving DecidableEq

/-- The dictionary the risk assessor serialises for the responder
invocation (risk_assessor/handler.py, lines 243-250): exactly these six
keys. -/
def payloadDict (p : EscalationPayload) : List (String × PVal) :=
  [("user_id", .str p.user_id),
   ("risk_level", .str p.risk_level.name),
   ("final_score", .num p.final_score),
   ("trigger_type", .str p.trigger_type),
   ("timestamp_iso", .int p.timestamp_iso),
   ("emergency_contacts", .strList p.emergency_contacts)]

/-- `event[key]` on a dictionary: `none` is a KeyError. -/
def dictGet (k : String) (d : List (String × PVal)) : Option PVal :=
  (d.find? (fun kv => kv.1 == k)).map (fun kv => kv.2)

/-- External state of the responder run: the contacts its own profile
lookup would produce. Only relevant on the success path. -/
structure ResponderEnv where
  profileContacts : List String

/-- Observable outcome of one responder run: status code and the contact
alerts actually sent. -/
structure ResponderResult where
  statusCode : ℕ
  alertsSent : List String
deriving DecidableEq

/-- `lambda_handler` of emergency_responder/handler.py (lines 19-59),
modelled up to its required-key extraction: the body reads
`event['user_id']`, `event['risk_assessment']`, `event['emergency_type']`
and `event['timestamp']` before doing anything else, and a KeyError on
any of them reaches the except clause, which returns 500 having sent
nothing. The post-extraction response actions (maps lookups, SNS
publishes) run against external collaborators and are abstracted to
"alerts sent to the profile contacts"; the claims settled here depend
only on the extraction. -/
def responder_handler (env : ResponderEnv) (event : List (String × PVal)) :
    ResponderResult :=
  match dictGet "user_id" event, dictGet "risk_assessment" event,
        dictGet "emergency_type" event, dictGet "timestamp" event with
  | some _, some _, some _, some _ => ⟨200, env.profileContacts⟩
  | _, _, _, _ => ⟨500, []⟩

/-! ## Concrete fixtures used by the claim theorems -/

/-- A store environment in which every call succeeds: the profile
lookup finds `p` and the three history queries return the given lists. -/
def okEnv (p : UserProfile) (a m t : List HistoryItem) : StoreEnv :=
  ⟨.ok (some p), .ok a, .ok m, .ok t, .ok (), .ok ()⟩

/-- A store environment in which the profile lookup succeeds but finds
no item, with empty history. -/
def noProfileEnv : StoreEnv :=
  ⟨.ok none, .ok [], .ok [], .ok [], .ok (), .ok ()⟩

/-- A profile with no configured areas and no contacts. -/
def emptyProfile : UserProfile := ⟨[], []⟩

/-- The persisted record without its `assessment_time` field: everything
the aggregation computes from the supplied inputs and configuration. -/
def RiskRecord.core (r : RiskRecord) :
    String × ℤ × ℚ × RiskLevel × String × ℚ × ℚ × ℚ × ℚ :=
  (r.user_id, r.timestamp, r.final_score, r.risk_level, r.trigger_type,
   r.base_threat_score, r.escalation_score, r.context_score, r.pattern_score)

/-! ## Claim theorems -/

/-- Claim C1, as stated, is false at its own scenario: for the text
trigger with score 0.5 at a night-hour timestamp, profile present, no
geofence hit, and the three-event window (trigger text event 0.5, audio
0.65, motion 0.7), the aggregator computes final_score 0.54, not 0.55:
the handler sets pattern_score to 0, so no 0.1-weighted pattern term
contributes. -/
theorem C1_counterexample :
    (lambda_handler defaultConfig
        (okEnv emptyProfile [⟨some (13/20)⟩] [⟨some (7/10)⟩] [⟨some (1/2)⟩]) 0
        ⟨some "u1", some "text_analysis", some 3600, some (1/2), none⟩).writes.map
      (fun r => r.final_score) = [27/50] ∧ ¬ ((27 : ℚ)/50 = 11/20) := by
  have h1 : ¬("u1" : String) = "" := by decide
  have h2 : ¬("text_analysis" : String) = "" := by decide
  constructor
  · norm_num [lambda_handler, okEnv, emptyProfile, validFields, truthyStr, truthyInt,
      escalationScore, recentThreatsCount, recentThreatTypesCount, highSeverityThreats,
      itemScore, contextScore, hourOf, is_within_high_risk_area, areaHit, get_risk_level,
      defaultConfig, successBody, RiskLevel.name, h1, h2]
  · norm_num

/-- Claim C1 amended: at the stated scenario the aggregator computes
escalation_score 1.0 (multi-type 0.4 + count 0.3 + severity 0.3),
context_score 0.2 (night only), pattern_score 0, and final_score
0.5·0.4 + 1.0·0.3 + 0.2·0.2 = 0.54, classified MEDIUM; the record is
written and no escalation fires. -/
theorem C1_amended :
    lambda_handler defaultConfig
        (okEnv emptyProfile [⟨some (13/20)⟩] [⟨some (7/10)⟩] [⟨some (1/2)⟩]) 0
        ⟨some "u1", some "text_analysis", some 3600, some (1/2), none⟩ =
      ⟨200, successBody (27/50) .MEDIUM,
       [⟨"u1", 3600, 27/50, .MEDIUM, "text_analysis", 1/2, 1, 1/5, 0, 0⟩], []⟩ := by
  have h1 : ¬("u1" : String) = "" := by decide
  have h2 : ¬("text_analysis" : String) = "" := by decide
  norm_num [lambda_handler, okEnv, emptyProfile, validFields, truthyStr, truthyInt,
    escalationScore, recentThreatsCount, recentThreatTypesCount, highSeverityThreats,
    itemScore, contextScore, hourOf, is_within_high_risk_area, areaHit, get_risk_level,
    defaultConfig, successBody, RiskLevel.name, h1, h2]

/-- Claim C2: a validated trigger whose user has no stored profile takes
the degraded path, which returns 200 with the weighted-down base score
but performs no write at all to the risk assessments table — the
put_item sits in the profile-present branch only, although the comment
in that branch of the source says the base threat is still stored. -/
theorem C2_theorem :
    lambda_handler defaultConfig noProfileEnv 0
        ⟨some "u1", some "text_analysis", some 1000, some (9/10), none⟩ =
      ⟨200, successBody (9/25) .LOW, [], []⟩ := by
  have h1 : ¬("u1" : String) = "" := by decide
  have h2 : ¬("text_analysis" : String) = "" := by decide
  norm_num [lambda_handler, noProfileEnv, validFields, truthyStr, truthyInt,
    get_risk_level, defaultConfig, successBody, RiskLevel.name, h1, h2]

/-- Claim C3, as stated, is false: the persisted record embeds
`assessment_time`, the wall clock at run time, so two runs on identical
inputs at different wall-clock instants store different records. -/
theorem C3_counterexample :
    lambda_handler defaultConfig (okEnv emptyProfile [] [] []) 0
        ⟨some "u1", some "text_analysis", some 3600, some (1/2), none⟩ ≠
      lambda_handler defaultConfig (okEnv emptyProfile [] [] []) 1
        ⟨some "u1", some "text_analysis", some 3600, some (1/2), none⟩ := by
  have h1 : ¬("u1" : String) = "" := by decide
  have h2 : ¬("text_analysis" : String) = "" := by decide
  norm_num [lambda_handler, okEnv, emptyProfile, validFields, truthyStr, truthyInt,
    escalationScore, recentThreatsCount, recentThreatTypesCount, highSeverityThreats,
    itemScore, contextScore, hourOf, is_within_high_risk_area, areaHit, get_risk_level,
    defaultConfig, successBody, RiskLevel.name, h1, h2]

/-- Claim C3 amended: for any configuration, store snapshot and trigger
event, the response status, response body, downstream invocations, and
every field of every persisted record except `assessment_time` are
identical across runs at different wall-clock times; only
`assessment_time` carries the wall clock. -/
theorem C3_amended (cfg : Config) (env : StoreEnv) (e : TriggerEvent) (now₁ now₂ : ℤ) :
    (lambda_handler cfg env now₁ e).statusCode = (lambda_handler cfg env now₂ e).statusCode ∧
    (lambda_handler cfg env now₁ e).body = (lambda_handler cfg env now₂ e).body ∧
    (lambda_handler cfg env now₁ e).writes.map RiskRecord.core =
      (lambda_handler cfg env now₂ e).writes.map RiskRecord.core ∧
    (lambda_handler cfg env now₁ e).invocations =
      (lambda_handler cfg env now₂ e).invocations := by
  obtain ⟨pg, aq, mq, tq, pr, ir⟩ := env
  rcases pg with u | op
  · simp [lambda_handler]
  rcases op with _ | p
  · simp [lambda_handler]
  rcases aq with u | al
  · simp [lambda_handler]
  rcases mq with u | ml
  · simp [lambda_handler]
  rcases tq with u | tl
  · simp [lambda_handler]
  rcases pr with u | _
  · simp [lambda_handler]
  rcases ir with u | _ <;>
    refine ⟨?_, ?_, ?_, ?_⟩ <;>
      simp only [lambda_handler] <;>
        split_ifs <;>
          rfl

/-- Bounds of the final-score clamp `min(1.0, max(0.0, x))`. -/
theorem clamp_bounds (x : ℚ) : 0 ≤ min 1 (max 0 x) ∧ min 1 (max 0 x) ≤ 1 :=
  ⟨le_min (by norm_num) (le_max_left 0 x), min_le_left 1 _⟩

/-- Claim C4, as stated, is false: a payload with threat_score 3 passes
validation, and on the no-profile degraded path the handler returns
risk_score 3·0.4 = 1.2, outside [0,1] — the degraded branch never clamps
and the incoming score is not clamped defensively. -/
theorem C4_counterexample :
    bodyGet "risk_score" (lambda_handler defaultConfig noProfileEnv 0
        ⟨some "u1", some "text_analysis", some 1000, some 3, none⟩) = some (.num (6/5)) ∧
    ¬ ((6 : ℚ)/5 ≤ 1) := by
  have h1 : ¬("u1" : String) = "" := by decide
  have h2 : ¬("text_analysis" : String) = "" := by decide
  have hb1 : (("message" : String) == "risk_score") = false := by decide
  have hb2 : (("risk_score" : String) == "risk_score") = true := by decide
  constructor
  · norm_num [lambda_handler, noProfileEnv, validFields, truthyStr, truthyInt,
      get_risk_level, defaultConfig, successBody, RiskLevel.name, bodyGet, List.find?,
      h1, h2, hb1, hb2]
  · norm_num

/-- Claim C4 amended: when the incoming threat_score lies in [0,1], the
final score persisted and the risk_score returned lie in [0,1] on every
path; the profile-present path clamps its weighted combination, and the
degraded path stays in range only because 0.4·score does for in-range
scores. -/
theorem C4_amended (env : StoreEnv) (now : ℤ) (e : TriggerEvent)
    (h0 : 0 ≤ e.threat_score.getD 0) (h1 : e.threat_score.getD 0 ≤ 1) :
    (∀ r ∈ (lambda_handler defaultConfig env now e).writes,
      0 ≤ r.final_score ∧ r.final_score ≤ 1) ∧
    (∀ q, bodyGet "risk_score" (lambda_handler defaultConfig env now e) = some (.num q) →
      0 ≤ q ∧ q ≤ 1) := by
  obtain ⟨pg, aq, mq, tq, pr, ir⟩ := env
  by_cases hv : validFields e = true
  · rcases pg with u | op
    · simp [lambda_handler, hv, bodyGet, internalErrorBody]
    rcases op with _ | p
    · simp only [lambda_handler, hv, if_true]
      constructor
      · intro r hr
        simp at hr
      · intro q hq
        simp [bodyGet, successBody, List.find?] at hq
        subst hq
        constructor
        · have hw : (0:ℚ) ≤ defaultConfig.WEIGHT_BASE_SCORE := by norm_num [defaultConfig]
          exact mul_nonneg h0 hw
        · have hw : defaultConfig.WEIGHT_BASE_SCORE = 2/5 := by norm_num [defaultConfig]
          rw [hw]
          nlinarith
    rcases aq with u | al
    · simp [lambda_handler, hv, bodyGet, internalErrorBody]
    rcases mq with u | ml
    · simp [lambda_handler, hv, bodyGet, internalErrorBody]
    rcases tq with u | tl
    · simp [lambda_handler, hv, bodyGet, internalErrorBody]
    rcases pr with u | _
    · simp [lambda_handler, hv, bodyGet, internalErrorBody]
    rcases ir with u | _ <;>
      constructor <;>
        simp only [lambda_handler, hv, if_true] <;>
          split_ifs <;>
            first
            | (intro r hr
               simp at hr
               subst hr
               exact clamp_bounds _)
            | (intro q hq
               simp [bodyGet, successBody, List.find?, internalErrorBody] at hq
               subst hq
               exact clamp_bounds _)
            | (intro q hq
               simp [bodyGet, internalErrorBody] at hq)
  · simp [lambda_handler, hv, bodyGet, validationErrorBody]

/-- Witness for the amended C4 at a concrete in-range trigger. -/
theorem C4_witness :
    (∀ r ∈ (lambda_handler defaultConfig noProfileEnv 0
        ⟨some "u1", some "text_analysis", some 1000, some (1/2), none⟩).writes,
      0 ≤ r.final_score ∧ r.final_score ≤ 1) ∧
    (∀ q, bodyGet "risk_score" (lambda_handler defaultConfig noProfileEnv 0
        ⟨some "u1", some "text_analysis", some 1000, some (1/2), none⟩) = some (.num q) →
      0 ≤ q ∧ q ≤ 1) :=
  C4_amended noProfileEnv 0 ⟨some "u1", some "text_analysis", some 1000, some (1/2), none⟩
    (by norm_num) (by norm_num)

/-- Claim C5, as stated, is false: when the profile lookup raises, the
exception reaches the top-level except clause and the handler returns a
500 internal-error response with no assessment computed, written or
returned — the outage is surfaced as a failed computation. -/
theorem C5_counterexample :
    lambda_handler defaultConfig ⟨.error (), .ok [], .ok [], .ok [], .ok (), .ok ()⟩ 0
        ⟨some "u1", some "text_analysis", some 1000, some (1/2), none⟩ =
      ⟨500, internalErrorBody, [], []⟩ := by
  have h1 : ¬("u1" : String) = "" := by decide
  have h2 : ¬("text_analysis" : String) = "" := by decide
  simp [lambda_handler, validFields, truthyStr, truthyInt, h1, h2]

/-- Claim C5 amended: a raising profile lookup, or a raising history
query when a profile was found, makes the handler return statusCode 500
with the generic internal error body, no write and no invocation;
escalation_score is not computed at all, and graceful degradation
happens only when the profile lookup succeeds and finds no item. -/
theorem C5_amended (cfg : Config) (env : StoreEnv) (now : ℤ) (e : TriggerEvent)
    (hv : validFields e = true)
    (herr : env.profileGet = .error () ∨
      ∃ p, env.profileGet = .ok (some p) ∧
        (env.audioQuery = .error () ∨ env.motionQuery = .error () ∨
         env.textQuery = .error ())) :
    lambda_handler cfg env now e = ⟨500, internalErrorBody, [], []⟩ := by
  rcases herr with hp | ⟨p, hp, hq⟩
  · simp [lambda_handler, hv, hp]
  rcases hq with ha | hm | ht
  · simp [lambda_handler, hv, hp, ha]
  · rcases haq : env.audioQuery with u | al
    · simp [lambda_handler, hv, hp, haq]
    · simp [lambda_handler, hv, hp, haq, hm]
  · rcases haq : env.audioQuery with u | al
    · simp [lambda_handler, hv, hp, haq]
    rcases hmq : env.motionQuery with u | ml
    · simp [lambda_handler, hv, hp, haq, hmq]
    simp [lambda_handler, hv, hp, haq, hmq, ht]

/-- Witness for the amended C5 at a concrete raising profile lookup. -/
theorem C5_witness :
    lambda_handler defaultConfig ⟨.error (), .ok [], .ok [], .ok [], .ok (), .ok ()⟩ 0
        ⟨some "u2", some "audio_analysis", some 2000, some (1/2), none⟩ =
      ⟨500, internalErrorBody, [], []⟩ :=
  C5_amended defaultConfig ⟨.error (), .ok [], .ok [], .ok [], .ok (), .ok ()⟩ 0
    ⟨some "u2", some "audio_analysis", some 2000, some (1/2), none⟩
    (by decide) (Or.inl rfl)

/-- Claim C6, as stated, is false: a payload whose four required fields
are all present and non-null, with timestamp the integer 0, is still
rejected with 400 — the validation tests Python truthiness, and 0 is
falsy (as are empty-string user_id and trigger_type). -/
theorem C6_counterexample :
    (lambda_handler defaultConfig noProfileEnv 0
        ⟨some "u1", some "text_analysis", some 0, some (1/2), none⟩).statusCode = 400 := by
  simp [lambda_handler, validFields, truthyStr, truthyInt]

/-- Claim C6 amended: the handler returns 400 exactly when the
truthiness validation fails (user_id or trigger_type missing, null or
empty, timestamp missing, null or zero, or threat_score missing or
null); a rejected payload yields exactly the 400 response with no write
and no invocation, and the outcome is independent of the store state. -/
theorem C6_amended (cfg : Config) (env : StoreEnv) (now : ℤ) (e : TriggerEvent) :
    ((lambda_handler cfg env now e).statusCode = 400 ↔ validFields e = false) ∧
    (validFields e = false →
      lambda_handler cfg env now e = ⟨400, validationErrorBody, [], []⟩ ∧
      ∀ env₂ : StoreEnv, lambda_handler cfg env₂ now e = lambda_handler cfg env now e) := by
  by_cases hv : validFields e = true
  · have hne : (lambda_handler cfg env now e).statusCode ≠ 400 := by
      obtain ⟨pg, aq, mq, tq, pr, ir⟩ := env
      rcases pg with u | op
      · simp [lambda_handler, hv]
      rcases op with _ | p
      · simp [lambda_handler, hv]
      rcases aq with u | al
      · simp [lambda_handler, hv]
      rcases mq with u | ml
      · simp [lambda_handler, hv]
      rcases tq with u | tl
      · simp [lambda_handler, hv]
      rcases pr with u | _
      · simp [lambda_handler, hv]
      rcases ir with u | _ <;>
        simp only [lambda_handler, hv, if_true] <;> split_ifs <;> simp
    constructor
    · simp [hne, hv]
    · intro hf
      rw [hv] at hf
      exact absurd hf (by simp)
  · have hv2 : validFields e = false := by
      cases h : validFields e
      · rfl
      · exact absurd h hv
    refine ⟨by simp [lambda_handler, hv2], fun _ => ⟨by simp [lambda_handler, hv2], ?_⟩⟩
    intro env₂
    simp [lambda_handler, hv2]

/-- Witness for the amended C6 at a concrete payload missing its
timestamp. -/
theorem C6_witness :
    lambda_handler defaultConfig noProfileEnv 0
        ⟨some "u1", some "text_analysis", none, some (1/2), none⟩ =
      ⟨400, validationErrorBody, [], []⟩ :=
  ((C6_amended defaultConfig noProfileEnv 0
      ⟨some "u1", some "text_analysis", none, some (1/2), none⟩).2 (by decide)).1

/-- Claim C7, as stated, is false: the success response body carries the
keys message, risk_score and risk_level only — there is no
emergency_triggered field in the returned body. -/
theorem C7_counterexample :
    (lambda_handler defaultConfig (okEnv emptyProfile [] [] []) 0
        ⟨some "u1", some "text_analysis", some 1000, some (1/2), none⟩).statusCode = 200 ∧
    bodyGet "emergency_triggered" (lambda_handler defaultConfig (okEnv emptyProfile [] [] []) 0
        ⟨some "u1", some "text_analysis", some 1000, some (1/2), none⟩) = none := by
  have h1 : ¬("u1" : String) = "" := by decide
  have h2 : ¬("text_analysis" : String) = "" := by decide
  have hb1 : (("message" : String) == "emergency_triggered") = false := by decide
  have hb2 : (("risk_score" : String) == "emergency_triggered") = false := by decide
  have hb3 : (("risk_level" : String) == "emergency_triggered") = false := by decide
  constructor <;>
    norm_num [lambda_handler, okEnv, emptyProfile, validFields, truthyStr, truthyInt,
      escalationScore, recentThreatsCount, recentThreatTypesCount, highSeverityThreats,
      itemScore, contextScore, hourOf, is_within_high_risk_area, areaHit, get_risk_level,
      defaultConfig, successBody, RiskLevel.name, bodyGet, List.find?,
      h1, h2, hb1, hb2, hb3]

/-- Claim C7 amended: a successfully processed trigger (profile found,
all store calls succeeding) returns 200 with risk_score and risk_level
in the body but no emergency_triggered field; the observable escalation
signal is the Emergency Responder invocation, performed if and only if
final_score reaches the escalation threshold (default 0.8, inclusive
boundary). -/
theorem C7_amended (now : ℤ) (e : TriggerEvent) (p : UserProfile)
    (a m t : List HistoryItem) (hv : validFields e = true) :
    defaultConfig.RISK_ASSESSMENT_THRESHOLD = 4/5 ∧
    (lambda_handler defaultConfig (okEnv p a m t) now e).statusCode = 200 ∧
    bodyGet "emergency_triggered" (lambda_handler defaultConfig (okEnv p a m t) now e) = none ∧
    (bodyGet "risk_score" (lambda_handler defaultConfig (okEnv p a m t) now e)).isSome = true ∧
    (bodyGet "risk_level" (lambda_handler defaultConfig (okEnv p a m t) now e)).isSome = true ∧
    (∀ rec ∈ (lambda_handler defaultConfig (okEnv p a m t) now e).writes,
      ((lambda_handler defaultConfig (okEnv p a m t) now e).invocations ≠ [] ↔
        defaultConfig.RISK_ASSESSMENT_THRESHOLD ≤ rec.final_score)) := by
  have hb1 : (("message" : String) == "emergency_triggered") = false := by decide
  have hb2 : (("risk_score" : String) == "emergency_triggered") = false := by decide
  have hb3 : (("risk_level" : String) == "emergency_triggered") = false := by decide
  have hm1 : (("message" : String) == "risk_score") = false := by decide
  have hm2 : (("risk_score" : String) == "risk_score") = true := by decide
  have hl1 : (("message" : String) == "risk_level") = false := by decide
  have hl2 : (("risk_score" : String) == "risk_level") = false := by decide
  have hl3 : (("risk_level" : String) == "risk_level") = true := by decide
  refine ⟨by norm_num [defaultConfig], ?_⟩
  simp only [lambda_handler, okEnv, hv, if_true]
  split_ifs <;>
    (refine ⟨rfl, ?_, ?_, ?_, ?_⟩
     · simp [bodyGet, successBody, List.find?, hb1, hb2, hb3]
     · simp [bodyGet, successBody, List.find?, hm1, hm2]
     · simp [bodyGet, successBody, List.find?, hl1, hl2, hl3]
     · intro rec hrec
       simp only [List.mem_singleton] at hrec
       subst hrec
       simp_all)

/-- Witness for the amended C7 at a trigger whose final score is exactly
the 0.8 threshold: motion trigger score 1, full multi-type history,
night hour and a geofence hit. -/
theorem C7_witness :
    defaultConfig.RISK_ASSESSMENT_THRESHOLD = 4/5 ∧
    (lambda_handler defaultConfig
        (okEnv ⟨[⟨some 0, some 0, some 1⟩], ["contact1"]⟩ [⟨some 1⟩] [⟨some 1⟩] [⟨some 1⟩]) 0
        ⟨some "u1", some "motion_analysis", some 3600, some 1, some ⟨some 0, some 0⟩⟩).statusCode
      = 200 ∧
    bodyGet "emergency_triggered" (lambda_handler defaultConfig
        (okEnv ⟨[⟨some 0, some 0, some 1⟩], ["contact1"]⟩ [⟨some 1⟩] [⟨some 1⟩] [⟨some 1⟩]) 0
        ⟨some "u1", some "motion_analysis", some 3600, some 1, some ⟨some 0, some 0⟩⟩) = none ∧
    (bodyGet "risk_score" (lambda_handler defaultConfig
        (okEnv ⟨[⟨some 0, some 0, some 1⟩], ["contact1"]⟩ [⟨some 1⟩] [⟨some 1⟩] [⟨some 1⟩]) 0
        ⟨some "u1", some "motion_analysis", some 3600, some 1,
         some ⟨some 0, some 0⟩⟩)).isSome = true ∧
    (bodyGet "risk_level" (lambda_handler defaultConfig
        (okEnv ⟨[⟨some 0, some 0, some 1⟩], ["contact1"]⟩ [⟨some 1⟩] [⟨some 1⟩] [⟨some 1⟩]) 0
        ⟨some "u1", some "motion_analysis", some 3600, some 1,
         some ⟨some 0, some 0⟩⟩)).isSome = true ∧
    (∀ rec ∈ (lambda_handler defaultConfig
        (okEnv ⟨[⟨some 0, some 0, some 1⟩], ["contact1"]⟩ [⟨some 1⟩] [⟨some 1⟩] [⟨some 1⟩]) 0
        ⟨some "u1", some "motion_analysis", some 3600, some 1,
         some ⟨some 0, some 0⟩⟩).writes,
      ((lambda_handler defaultConfig
          (okEnv ⟨[⟨some 0, some 0, some 1⟩], ["contact1"]⟩ [⟨some 1⟩] [⟨some 1⟩] [⟨some 1⟩]) 0
          ⟨some "u1", some "motion_analysis", some 3600, some 1,
           some ⟨some 0, some 0⟩⟩).invocations ≠ [] ↔
        defaultConfig.RISK_ASSESSMENT_THRESHOLD ≤ rec.final_score)) :=
  C7_amended 0 ⟨some "u1", some "motion_analysis", some 3600, some 1, some ⟨some 0, some 0⟩⟩
    ⟨[⟨some 0, some 0, some 1⟩], ["contact1"]⟩ [⟨some 1⟩] [⟨some 1⟩] [⟨some 1⟩] (by decide)

/-- Claim C8, as stated, is false: a trigger with threat_score 0.9 and
an empty queried history gets escalation_score 0 — the severity bonus
never fires, because the handler only inspects the queried items and
never the trigger threat_score itself. -/
theorem C8_counterexample :
    (lambda_handler defaultConfig (okEnv emptyProfile [] [] []) 0
        ⟨some "u1", some "text_analysis", some 43200, some (9/10), none⟩).writes.map
      (fun r => r.escalation_score) = [0] := by
  have h1 : ¬("u1" : String) = "" := by decide
  have h2 : ¬("text_analysis" : String) = "" := by decide
  norm_num [lambda_handler, okEnv, emptyProfile, validFields, truthyStr, truthyInt,
    escalationScore, recentThreatsCount, recentThreatTypesCount, highSeverityThreats,
    itemScore, contextScore, hourOf, is_within_high_risk_area, areaHit, get_risk_level,
    defaultConfig, successBody, RiskLevel.name, h1, h2]

/-- Claim C8 amended: the persisted escalation_score is a function of
the queried history snapshot alone, and its severity bonus fires exactly
when some queried item carries a stored score at or above 0.6; the
trigger threat_score is never consulted for it. -/
theorem C8_amended (now : ℤ) (e : TriggerEvent) (p : UserProfile) (a m t : List HistoryItem)
    (hv : validFields e = true) :
    (∀ rec ∈ (lambda_handler defaultConfig (okEnv p a m t) now e).writes,
      rec.escalation_score = escalationScore defaultConfig a m t) ∧
    (0 < highSeverityThreats defaultConfig a m t ↔
      ∃ i ∈ a ++ m ++ t, (3/5 : ℚ) ≤ itemScore i) := by
  constructor
  · simp only [lambda_handler, okEnv, hv, if_true]
    split_ifs <;>
      (intro rec hrec
       simp only [List.mem_singleton] at hrec
       subst hrec
       rfl)
  · have hS : defaultConfig.ESCALATION_HIGH_SEVERITY_THRESHOLD = 3/5 := by
      norm_num [defaultConfig]
    rw [highSeverityThreats, hS, List.length_pos_iff_exists_mem]
    constructor
    · rintro ⟨i, hi⟩
      rw [List.mem_filter] at hi
      exact ⟨i, hi.1, by simpa using hi.2⟩
    · rintro ⟨i, hi, hle⟩
      exact ⟨i, List.mem_filter.mpr ⟨hi, by simpa using hle⟩⟩

/-- Witness for the amended C8 at a concrete snapshot with one
high-severity audio item. -/
theorem C8_witness :
    (∀ rec ∈ (lambda_handler defaultConfig (okEnv emptyProfile [⟨some 1⟩] [] []) 0
        ⟨some "u1", some "text_analysis", some 1000, some 0, none⟩).writes,
      rec.escalation_score = escalationScore defaultConfig [⟨some 1⟩] [] []) ∧
    (0 < highSeverityThreats defaultConfig [⟨some 1⟩] [] [] ↔
      ∃ i ∈ ([⟨some 1⟩] : List HistoryItem) ++ [] ++ [], (3/5 : ℚ) ≤ itemScore i) :=
  C8_amended 0 ⟨some "u1", some "text_analysis", some 1000, some 0, none⟩
    emptyProfile [⟨some 1⟩] [] [] (by decide)

/-- The per-area bounding-box test succeeds exactly when both area
coordinates are present and the point is within the box. -/
theorem areaHit_iff (prox user_lat user_lon : ℚ) (ar : Area) :
    areaHit prox user_lat user_lon ar = true ↔
      ∃ ala alo, ar.latitude = some ala ∧ ar.longitude = some alo ∧
        |user_lat - ala| ≤ prox ∧ |user_lon - alo| ≤ prox := by
  obtain ⟨alat, alon, rad⟩ := ar
  rcases alat with _ | la2 <;> rcases alon with _ | lo2 <;>
    simp [areaHit]

/-- The per-area test never reads the radius field. -/
theorem areaHit_radius (prox user_lat user_lon : ℚ) (ar : Area) (r : Option ℚ) :
    areaHit prox user_lat user_lon ⟨ar.latitude, ar.longitude, r⟩ =
      areaHit prox user_lat user_lon ar := by
  obtain ⟨alat, alon, rad⟩ := ar
  rfl

/-- Replacing every radius in a list of areas leaves the OR of the
per-area tests unchanged. -/
theorem any_areaHit_map (prox user_lat user_lon : ℚ) (f : Area → Option ℚ) :
    ∀ areas : List Area,
      areas.any (areaHit prox user_lat user_lon ∘ fun ar =>
          (⟨ar.latitude, ar.longitude, f ar⟩ : Area)) =
        areas.any (areaHit prox user_lat user_lon)
  | [] => rfl
  | a0 :: rest => by
      simp only [List.any_cons, Function.comp_apply, areaHit_radius,
        any_areaHit_map prox user_lat user_lon f rest]

/-- Claim C9: for a point with both coordinates present, the geofence
test returns true iff some area with both coordinates present is within
PROXIMITY_DEGREE of the point in latitude and in longitude (axis-aligned
box, OR over areas); the result is invariant under changing every radius
field; a point at a center matches (for nonnegative proximity), and a
point strictly farther than the proximity on some axis from every center
does not. -/
theorem C9_theorem (prox : ℚ) (l : Location) (user_lat user_lon : ℚ)
    (hla : l.latitude = some user_lat) (hlo : l.longitude = some user_lon)
    (areas : List Area) :
    (is_within_high_risk_area prox (some l) areas = true ↔
      ∃ ar ∈ areas, ∃ ala alo, ar.latitude = some ala ∧ ar.longitude = some alo ∧
        |user_lat - ala| ≤ prox ∧ |user_lon - alo| ≤ prox) ∧
    (∀ f : Area → Option ℚ,
      is_within_high_risk_area prox (some l)
          (areas.map (fun ar => (⟨ar.latitude, ar.longitude, f ar⟩ : Area))) =
        is_within_high_risk_area prox (some l) areas) ∧
    (0 ≤ prox → ∀ ar ∈ areas, ar.latitude = some user_lat →
      ar.longitude = some user_lon →
      is_within_high_risk_area prox (some l) areas = true) ∧
    ((∀ ar ∈ areas, ∀ ala alo, ar.latitude = some ala → ar.longitude = some alo →
        prox < |user_lat - ala| ∨ prox < |user_lon - alo|) →
      is_within_high_risk_area prox (some l) areas = false) := by
  have hmain : is_within_high_risk_area prox (some l) areas = true ↔
      ∃ ar ∈ areas, ∃ ala alo, ar.latitude = some ala ∧ ar.longitude = some alo ∧
        |user_lat - ala| ≤ prox ∧ |user_lon - alo| ≤ prox := by
    rcases areas with _ | ⟨a0, rest⟩
    · simp [is_within_high_risk_area]
    · simp [is_within_high_risk_area, hla, hlo, List.any_eq_true, areaHit_iff]
  refine ⟨hmain, ?_, ?_, ?_⟩
  · intro f
    rcases areas with _ | ⟨a0, rest⟩
    · rfl
    · simp [is_within_high_risk_area, hla, hlo, areaHit_radius, any_areaHit_map]
  · intro hp ar har h1 h2
    exact hmain.mpr ⟨ar, har, user_lat, user_lon, h1, h2, by simp [hp], by simp [hp]⟩
  · intro hall
    cases hw : is_within_high_risk_area prox (some l) areas
    · rfl
    · exfalso
      obtain ⟨ar, har, ala, alo, h1, h2, h3, h4⟩ := hmain.mp hw
      rcases hall ar har ala alo h1 h2 with h | h
      · exact absurd h3 (not_le.mpr h)
      · exact absurd h4 (not_le.mpr h)

/-- Witness for C9 at a point sitting exactly on the single configured
center. -/
theorem C9_witness :
    (is_within_high_risk_area (1/100) (some ⟨some 0, some 0⟩)
        [⟨some 0, some 0, some 5⟩] = true ↔
      ∃ ar ∈ ([⟨some 0, some 0, some 5⟩] : List Area),
        ∃ ala alo, ar.latitude = some ala ∧ ar.longitude = some alo ∧
          |(0 : ℚ) - ala| ≤ 1/100 ∧ |(0 : ℚ) - alo| ≤ 1/100) ∧
    (∀ f : Area → Option ℚ,
      is_within_high_risk_area (1/100) (some ⟨some 0, some 0⟩)
          (([⟨some 0, some 0, some 5⟩] : List Area).map
            (fun ar => (⟨ar.latitude, ar.longitude, f ar⟩ : Area))) =
        is_within_high_risk_area (1/100) (some ⟨some 0, some 0⟩)
          [⟨some 0, some 0, some 5⟩]) ∧
    ((0 : ℚ) ≤ 1/100 → ∀ ar ∈ ([⟨some 0, some 0, some 5⟩] : List Area),
      ar.latitude = some 0 → ar.longitude = some 0 →
      is_within_high_risk_area (1/100) (some ⟨some 0, some 0⟩)
        [⟨some 0, some 0, some 5⟩] = true) ∧
    ((∀ ar ∈ ([⟨some 0, some 0, some 5⟩] : List Area), ∀ ala alo,
        ar.latitude = some ala → ar.longitude = some alo →
        (1/100 : ℚ) < |(0 : ℚ) - ala| ∨ (1/100 : ℚ) < |(0 : ℚ) - alo|) →
      is_within_high_risk_area (1/100) (some ⟨some 0, some 0⟩)
        [⟨some 0, some 0, some 5⟩] = false) :=
  C9_theorem (1/100) ⟨some 0, some 0⟩ 0 0 rfl rfl [⟨some 0, some 0, some 5⟩]

/-- Claim C10: every escalation payload the risk assessor emits carries
exactly the keys user_id, risk_level, final_score, trigger_type,
timestamp_iso and emergency_contacts; the responder handler demands
risk_assessment (and emergency_type, timestamp), hits a KeyError, and
its except clause returns 500 with no contact alert sent. -/
theorem C10_theorem (p : EscalationPayload) (env : ResponderEnv) :
    dictGet "risk_assessment" (payloadDict p) = none ∧
    responder_handler env (payloadDict p) = ⟨500, []⟩ := by
  exact ⟨rfl, rfl⟩

end SafeSakhi
